import Mathlib

/-!
Verification development for the VoiceAI backend (slide narration and
conversational AI service).  The definitions below are shallow embeddings of
the JavaScript source files:

* `backend/src/services/conversationalAI.js` — intent detection, confidence
  scoring, relevant-slide ranking, `generateResponse` session updates;
* `backend/src/routes/ai.js` — the `/api/narrate` and
  `/api/pregenerate-audio` routes;
* `backend/src/index.js` — the `GET /uploads/audio/:filename` range-request
  handler;
* `backend/src/services/textToSpeech.js` — `textToSpeechFile` (writes
  `<filename>.mp3` and returns `/uploads/audio/<filename>.mp3`);
* the frontend `Walkthrough` page — the background pre-generation response
  handler that marks a slide `ready`/`failed`.

Strings from the program are modelled as `List Char`; JavaScript numbers that
only ever hold integers are `Nat`; the running average latency is `ℚ`.
External providers (image analysis, text generation, TTS) are modelled as
oracle parameters: a `Bool` saying whether the call succeeds plus the value
it would return.
-/

namespace VoiceAI

/-- Whitespace class used by JavaScript `trim` and `\s` (ASCII part). -/
def isJsWhitespace (c : Char) : Bool :=
  c = ' ' || c = '\t' || c = '\n' || c = '\r' || c = Char.ofNat 11 || c = Char.ofNat 12

/-- JavaScript `String.prototype.trim` on a character list. -/
def jsTrim (l : List Char) : List Char :=
  ((l.dropWhile isJsWhitespace).reverse.dropWhile isJsWhitespace).reverse

/-- JavaScript `String.prototype.toLowerCase` (ASCII). -/
def jsLower (l : List Char) : List Char :=
  l.map Char.toLower

/-- JavaScript regex word character class `\w` = `[A-Za-z0-9_]`. -/
def isWordChar (c : Char) : Bool :=
  c.isAlpha || c.isDigit || c = '_'

/-- Match of an anchored alternation `^(a1|a2|...)`: the first alternative in
the list that is a prefix of the input, as JavaScript alternation tries
alternatives left to right.  Returns the matched text (`match[0]`). -/
def matchStart (alts : List (List Char)) (s : List Char) : Option (List Char) :=
  alts.find? (fun a => a.isPrefixOf s)

/-- Trailing `\b` after a match ending before `rest`: holds when the input is
exhausted or the next character is not a word character (every alternative in
the patterns below ends in a word character). -/
def wordBoundaryAfter (rest : List Char) : Bool :=
  match rest with
  | [] => true
  | c :: _ => !isWordChar c

/-- Match of `\b(a1|a2|...)\b` with JavaScript leftmost-position,
first-alternative semantics.  `prev` is the character just before the current
position (`none` at the start of the input).  Every alternative starts with a
word character, so the leading `\b` at a position amounts to the previous
character not being a word character. -/
def findWordBounded (alts : List (List Char)) (prev : Option Char) (s : List Char) :
    Option (List Char) :=
  match s with
  | [] => none
  | c :: rest =>
    let boundaryBefore := match prev with
      | none => true
      | some p => !isWordChar p
    match (if boundaryBefore then
            alts.find? (fun a =>
              a.isPrefixOf (c :: rest) && wordBoundaryAfter (List.drop a.length (c :: rest)))
          else none) with
    | some a => some a
    | none => findWordBounded alts (some c) rest

/-- Intents of `ConversationalAI.intents`. -/
inductive Intent where
  | greeting
  | question
  | clarification
  | summary
  | navigation
  | farewell
  | unknown
deriving DecidableEq, Repr

/-- Apostrophe character, for the `that's all` farewell alternative. -/
def apos : Char := Char.ofNat 39

/-- Alternatives of `/^(hi|hello|hey|good morning|good afternoon|good evening)/i`. -/
def greetingAlts : List (List Char) :=
  ["hi".toList, "hello".toList, "hey".toList,
   "good morning".toList, "good afternoon".toList, "good evening".toList]

/-- Alternatives of
`/\b(what|how|why|when|where|who|can you|could you|explain|tell me)\b/i`. -/
def questionAlts : List (List Char) :=
  ["what".toList, "how".toList, "why".toList, "when".toList, "where".toList,
   "who".toList, "can you".toList, "could you".toList, "explain".toList,
   "tell me".toList]

/-- Alternatives of
`/\b(clarify|explain more|elaborate|can you repeat|what do you mean)\b/i`. -/
def clarificationAlts : List (List Char) :=
  ["clarify".toList, "explain more".toList, "elaborate".toList,
   "can you repeat".toList, "what do you mean".toList]

/-- Alternatives of
`/\b(summarize|summary|overview|main points|key takeaways)\b/i`. -/
def summaryAlts : List (List Char) :=
  ["summarize".toList, "summary".toList, "overview".toList,
   "main points".toList, "key takeaways".toList]

/-- Alternatives of `/\b(go to|show me|navigate|slide|page|next|previous)\b/i`. -/
def navigationAlts : List (List Char) :=
  ["go to".toList, "show me".toList, "navigate".toList, "slide".toList,
   "page".toList, "next".toList, "previous".toList]

/-- Alternatives of the farewell pattern: it is anchored and its third-to-last
alternative contains an apostrophe. -/
def farewellAlts : List (List Char) :=
  ["bye".toList, "goodbye".toList, "thanks".toList, "thank you".toList,
   ("that".toList ++ [apos] ++ "s all".toList), "end".toList]

/-- First matching pattern over the cleaned input, in the insertion order of
`this.intentPatterns` (greeting, question, clarification, summary, navigation,
farewell); returns the intent together with the matched text. -/
def firstPatternMatch (s : List Char) : Option (Intent × List Char) :=
  match matchStart greetingAlts s with
  | some m => some (.greeting, m)
  | none =>
  match findWordBounded questionAlts none s with
  | some m => some (.question, m)
  | none =>
  match findWordBounded clarificationAlts none s with
  | some m => some (.clarification, m)
  | none =>
  match findWordBounded summaryAlts none s with
  | some m => some (.summary, m)
  | none =>
  match findWordBounded navigationAlts none s with
  | some m => some (.navigation, m)
  | none =>
  match matchStart farewellAlts s with
  | some m => some (.farewell, m)
  | none => none

/-- `ConversationalAI.calculateIntentConfidence`: `min(0.9, 0.5 + m/n)` where
`m` is the length of `match[0]` and `n` the length of the cleaned input. -/
def calculateIntentConfidence (clean matched : List Char) : ℚ :=
  min (9/10 : ℚ) (1/2 + (matched.length : ℚ) / (clean.length : ℚ))

/-- Result of intent detection. -/
structure IntentResult where
  intent : Intent
  confidence : ℚ
deriving DecidableEq, Repr

/-- `ConversationalAI.detectIntent`, on the character list of the input;
`jsLower (jsTrim input)` is the `cleanInput` of the source. -/
def detectIntentL (input : List Char) : IntentResult :=
  if jsLower (jsTrim input) = [] then ⟨.unknown, 0⟩
  else
    match firstPatternMatch (jsLower (jsTrim input)) with
    | some (i, m) => ⟨i, calculateIntentConfidence (jsLower (jsTrim input)) m⟩
    | none =>
      if (jsLower (jsTrim input)).getLast? = some '?' then ⟨.question, 7/10⟩
      else ⟨.unknown, 3/10⟩

/-- `ConversationalAI.detectIntent` on a `String` input. -/
def detectIntent (input : String) : IntentResult :=
  detectIntentL input.toList

/-- JavaScript `a || b` on strings: the empty string is falsy. -/
def jsOr (a b : List Char) : List Char :=
  if a = [] then b else a

/-- Split on runs of whitespace, as `split(/\s+/)` does up to the empty
fragments its result may carry at the ends (those are removed by the
`length > 3` filter of every caller before use). -/
def splitWs (l : List Char) : List (List Char) :=
  match l with
  | [] => []
  | c :: rest =>
    if isJsWhitespace c then splitWs rest
    else
      match splitWs rest with
      | [] => [[c]]
      | w :: ws =>
        match rest with
        | [] => [[c]]
        | d :: _ => if isJsWhitespace d then [c] :: w :: ws else (c :: w) :: ws

/-- Slide object as consumed by `findRelevantSlides`: absent fields are the
empty string (JavaScript `undefined` is falsy in the `||` chains). -/
structure JsSlide where
  title : List Char := []
  content : List Char := []
  text : List Char := []
  narration : List Char := []
deriving DecidableEq, Repr

/-- Entry of the list returned by `findRelevantSlides`. -/
structure RelevantSlide where
  slideIndex : ℕ
  title : List Char
  relevanceScore : ℕ
deriving DecidableEq, Repr

/-- JavaScript `hay.includes(needle)`: substring containment. -/
def containsSub (needle : List Char) : List Char → Bool
  | [] => needle.isPrefixOf []
  | c :: t => needle.isPrefixOf (c :: t) || containsSub needle t

/-- Keywords of the query: lower-cased words of length greater than 3. -/
def keywordsOf (userInput : List Char) : List (List Char) :=
  (splitWs (jsLower userInput)).filter (fun w => 3 < w.length)

/-- Relevance score of one slide: for each keyword, +2 when the slide
body/text/narration contains it and +3 when the title contains it. -/
def relevanceScoreOf (keywords : List (List Char)) (s : JsSlide) : ℕ :=
  let slideText := jsLower (jsOr (jsOr s.content s.text) s.narration)
  let slideTitle := jsLower s.title
  keywords.foldl
    (fun acc k =>
      acc + (if containsSub k slideText then 2 else 0)
          + (if containsSub k slideTitle then 3 else 0)) 0

/-- Stable insertion placing `e` before the first element whose score is not
greater: this reproduces a stable sort with comparator
`(a, b) => b.relevanceScore - a.relevanceScore`. -/
def insertByScore (e : RelevantSlide) : List RelevantSlide → List RelevantSlide
  | [] => [e]
  | x :: xs =>
    if x.relevanceScore > e.relevanceScore then x :: insertByScore e xs
    else e :: x :: xs

/-- Stable sort by descending relevance score (equal scores keep their
original relative order, as guaranteed for `Array.prototype.sort`). -/
def sortByScoreDesc (l : List RelevantSlide) : List RelevantSlide :=
  l.foldr insertByScore []

/-- Default title `Slide ${index + 1}` used when the slide has no title. -/
def defaultTitle (index : ℕ) : List Char :=
  "Slide ".toList ++ (Nat.repr (index + 1)).toList

/-- `ConversationalAI.findRelevantSlides`: score every slide against the
query keywords, keep positive scores, sort by score descending and return at
most three entries. -/
def findRelevantSlides (userInput : List Char) (slides : List JsSlide) :
    List RelevantSlide :=
  let keywords := keywordsOf userInput
  let scored := slides.enum.map (fun p =>
    RelevantSlide.mk p.1 (jsOr p.2.title (defaultTitle p.1))
      (relevanceScoreOf keywords p.2))
  ((sortByScoreDesc (scored.filter (fun e => 0 < e.relevanceScore))).take 3)

/-- Stable insertion for rational scores, for the reference ranking (the
spec constrains the order of the result, not the sorting algorithm). -/
def insertByScoreQ (e : ℕ × ℚ) : List (ℕ × ℚ) → List (ℕ × ℚ)
  | [] => [e]
  | x :: xs =>
    if x.2 > e.2 then x :: insertByScoreQ e xs
    else e :: x :: xs

/-- Stable sort by descending rational score. -/
def sortByScoreDescQ (l : List (ℕ × ℚ)) : List (ℕ × ℚ) :=
  l.foldr insertByScoreQ []

/-- Modelled from the spec: the reference fallback ranking of §4.5, which
normalizes each slide's keyword-overlap score by the number of query tokens
so that the reported scores are rationals (claimed to lie in `[0, 1]`).  Used
only to compare the specified ranking against `findRelevantSlides`. -/
def specFallbackRank (userInput : List Char) (slides : List JsSlide) :
    List (ℕ × ℚ) :=
  let keywords := keywordsOf userInput
  let scored := slides.enum.map (fun p =>
    (p.1, (relevanceScoreOf keywords p.2 : ℚ) / (keywords.length : ℚ)))
  ((sortByScoreDescQ (scored.filter (fun e => 0 < e.2))).take 3)

/-- Delete the first occurrence of `pat` from `hay` (JavaScript
`hay.replace(pat, "")` with a non-global pattern). -/
def removeFirstSub (pat : List Char) : List Char → List Char
  | [] => []
  | c :: t =>
    if pat.isPrefixOf (c :: t) then List.drop (pat.length - 1) t
    else c :: removeFirstSub pat t

/-- JavaScript `parseInt(s, 10)` restricted to the shapes the audio route
meets: the leading run of decimal digits, `none` for `NaN`. -/
def jsParseInt (l : List Char) : Option ℕ :=
  let ds := l.takeWhile Char.isDigit
  if ds = [] then none
  else some (ds.foldl (fun n c => 10 * n + (c.toNat - 48)) 0)

/-- HTTP response of the audio route, restricted to the headers the claims
are about. -/
structure AudioResponse where
  status : ℕ
  contentRange : Option (List Char) := none
  contentLength : Option ℕ := none
  acceptRanges : Bool := false
  body : List ℕ := []
deriving DecidableEq, Repr

/-- Lookup of a file on the modelled disk (association list filename →
contents). -/
def lookupFile {β : Type} (disk : List (List Char × β)) (name : List Char) :
    Option β :=
  (disk.find? (fun p => p.1 == name)).map (fun p => p.2)

/-- `GET /uploads/audio/:filename` from `backend/src/index.js`: a missing
file is a 404; with a `Range` header the route parses
`range.replace(/bytes=/, "").split("-")`, answers 206 with
`Content-Range: bytes start-end/size` and `Content-Length: end - start + 1`,
and streams exactly the bytes `start..end`; without a header it answers 200
with the whole file and `Accept-Ranges: bytes`.  An unparsable start (or a
start beyond the end) makes `fs.createReadStream` throw before any header is
written, which Express turns into a 500. -/
def serveAudio (store : List (List Char × List ℕ)) (filename : List Char)
    (rangeHeader : Option (List Char)) : AudioResponse :=
  match lookupFile store filename with
  | none => { status := 404 }
  | some bytes =>
    let fileSize := bytes.length
    match rangeHeader with
    | none =>
      { status := 200, contentLength := some fileSize, acceptRanges := true,
        body := bytes }
    | some range =>
      let parts := (removeFirstSub "bytes=".toList range).splitOn '-'
      let startB := jsParseInt (parts.headD [])
      let endB := match parts.get? 1 with
        | some p => if p = [] then some (fileSize - 1) else jsParseInt p
        | none => some (fileSize - 1)
      match startB, endB with
      | some s, some e =>
        if e < s then { status := 500 }
        else
          { status := 206,
            contentRange := some ("bytes ".toList ++ (Nat.repr s).toList
              ++ ['-'] ++ (Nat.repr e).toList ++ ['/']
              ++ (Nat.repr fileSize).toList),
            contentLength := some (e - s + 1),
            acceptRanges := true,
            body := (bytes.drop s).take (e - s + 1) }
      | _, _ => { status := 500 }

/-- Slide object in the bodies of `/api/pregenerate-audio` and
`/api/narrate`; absent string fields are the empty list (falsy). -/
structure RouteSlide where
  id : List Char := []
  pptName : List Char := []
  pageNumber : ℕ := 0
  totalPages : ℕ := 0
  title : List Char := []
  text : List Char := []
  image : List Char := []
  preGeneratedAudio : List Char := []
  preGeneratedNarration : List Char := []
deriving DecidableEq, Repr

/-- `pptName.replace(/[^a-zA-Z0-9]/g, '_')`. -/
def sanitizeName (l : List Char) : List Char :=
  l.map (fun c => if c.isAlpha || c.isDigit then c else '_')

/-- Deterministic audio cache key of `/api/pregenerate-audio`:
`slide-${cleanPptName}-${slide.pageNumber}` with
`pptName = slide.pptName || 'unknown'`. -/
def audioFilenameOf (slide : RouteSlide) : List Char :=
  "slide-".toList ++ sanitizeName (jsOr slide.pptName "unknown".toList)
    ++ ['-'] ++ (Nat.repr slide.pageNumber).toList

/-- Oracle for the external calls a pre-generation request may make. -/
structure PregenEnv where
  analysisOk : Bool := true
  analysisText : List Char := []
  ttsOk : Bool := true
  audioBytes : List Char := []
deriving Repr

/-- JSON answer of `/api/pregenerate-audio`, with bookkeeping of whether a
narration (image-analysis) or TTS provider call was issued during the
request. -/
structure PregenResult where
  status : ℕ
  audioUrl : Option (List Char) := none
  narration : Option (List Char) := none
  narrationProviderCalled : Bool := false
  ttsProviderCalled : Bool := false
deriving DecidableEq, Repr

/-- `POST /api/pregenerate-audio` from `backend/src/routes/ai.js`: serve the
in-memory audio if the request body carries one; else serve
`<key>.wav` from disk if present (reading the cached `<key>.txt` narration);
else generate the narration (image analysis when the slide has an
`/uploads/` image), synthesize speech via `textToSpeechFile` — which writes
`<key>.mp3` — cache the narration text as `<key>.txt`, and answer with the
new audio URL.  Provider errors surface as a 500. -/
def pregenerateAudio (disk : List (List Char × List Char)) (slide : RouteSlide)
    (env : PregenEnv) : PregenResult × List (List Char × List Char) :=
  if slide.preGeneratedAudio ≠ [] then
    ({ status := 200, audioUrl := some slide.preGeneratedAudio,
       narration := some slide.preGeneratedNarration }, disk)
  else
    let key := audioFilenameOf slide
    match lookupFile disk (key ++ ".wav".toList) with
    | some _ =>
      let narration := match lookupFile disk (key ++ ".txt".toList) with
        | some t => t
        | none => jsOr slide.text
            ("Slide ".toList ++ (Nat.repr slide.pageNumber).toList)
      ({ status := 200,
         audioUrl := some ("/uploads/audio/".toList ++ key ++ ".wav".toList),
         narration := some narration }, disk)
    | none =>
      let hasImg := "/uploads/".toList.isPrefixOf slide.image
      if hasImg && !env.analysisOk then
        ({ status := 500, narrationProviderCalled := true }, disk)
      else
        let narrationText := if hasImg then env.analysisText
          else jsOr slide.text (jsOr slide.title
            "This slide contains important presentation content.".toList)
        if !env.ttsOk then
          ({ status := 500, narrationProviderCalled := hasImg,
             ttsProviderCalled := true }, disk)
        else
          let disk2 := disk ++ [(key ++ ".mp3".toList, env.audioBytes),
                                (key ++ ".txt".toList, narrationText)]
          ({ status := 200,
             audioUrl := some ("/uploads/audio/".toList ++ key
               ++ ".mp3".toList),
             narration := some narrationText,
             narrationProviderCalled := hasImg,
             ttsProviderCalled := true }, disk2)

/-- Oracle for the external calls of `/api/narrate`: image analysis, the
first TTS attempt and the TTS attempt of the fallback branch. -/
structure NarrateEnv where
  analysisOk : Bool := true
  analysisText : List Char := []
  tts1Ok : Bool := true
  tts2Ok : Bool := true
  now : ℕ := 0
deriving Repr

/-- JSON answer of `/api/narrate`. -/
structure NarrateResult where
  status : ℕ
  narration : List Char
  audioUrl : Option (List Char)
deriving DecidableEq, Repr

/-- Fallback branch of `/api/narrate`: basic text narration, a second TTS
attempt, and a text-only 200 when that too fails. -/
def narrateFallback (slide : RouteSlide) (env : NarrateEnv) : NarrateResult :=
  let fb := jsOr slide.text (jsOr slide.title
    "This slide presents important information.".toList)
  if env.tts2Ok then
    { status := 200, narration := fb,
      audioUrl := some ("/uploads/audio/fallback-".toList
        ++ jsOr slide.id "slide".toList ++ ['-']
        ++ (Nat.repr env.now).toList ++ ".mp3".toList) }
  else
    { status := 200, narration := fb, audioUrl := none }

/-- `POST /api/narrate` from `backend/src/routes/ai.js`: pre-generated audio
and narration are served instantly; otherwise narration is generated
on demand (image analysis when the slide has an `/uploads/` image) and
synthesized; any error falls into `narrateFallback`, which still answers 200
with narration text. -/
def narrate (slide : RouteSlide) (env : NarrateEnv) : NarrateResult :=
  if slide.preGeneratedAudio ≠ [] && slide.preGeneratedNarration ≠ [] then
    { status := 200, narration := slide.preGeneratedNarration,
      audioUrl := some slide.preGeneratedAudio }
  else
    let hasImg := "/uploads/".toList.isPrefixOf slide.image
    if hasImg && !env.analysisOk then narrateFallback slide env
    else
      let narrationText := if hasImg then env.analysisText
        else jsOr slide.text (jsOr slide.title
          "This slide contains important presentation content.".toList)
      if env.tts1Ok then
        { status := 200, narration := narrationText,
          audioUrl := some ("/uploads/audio/narration-".toList
            ++ jsOr slide.id "slide".toList ++ ['-']
            ++ (Nat.repr env.now).toList ++ ".mp3".toList) }
      else narrateFallback slide env

/-- Slide state kept by the frontend `Walkthrough` page. -/
structure FrontSlide where
  preGeneratedAudio : Option (List Char) := none
  preGeneratedNarration : Option (List Char) := none
  audioStatus : List Char := []
deriving DecidableEq, Repr

/-- Handler of a finished background pre-generation request in
`Walkthrough.preGenerateNextSlideAudio`: on success the slide at
`nextSlideIndex` gets the audio, narration and status `ready`; on failure
(non-ok response or thrown error) only its `audioStatus` becomes `failed`.
No user-visible error is produced on either branch. -/
def applyPregenResult (slides : List FrontSlide) (i : ℕ)
    (result : Option (List Char × List Char)) : List FrontSlide :=
  slides.enum.map (fun p =>
    if p.1 = i then
      match result with
      | some (url, narr) =>
        { p.2 with preGeneratedAudio := some url,
                   preGeneratedNarration := some narr,
                   audioStatus := "ready".toList }
      | none => { p.2 with audioStatus := "failed".toList }
    else p.2)

/-- Slide context attached to a conversation session. -/
structure SlideContext where
  slides : List JsSlide := []
deriving DecidableEq, Repr

/-- One entry of `session.conversationHistory`. -/
structure TurnEntry where
  userInput : List Char
  intent : Intent
  confidence : ℚ
  response : List Char
  audioUrl : Option (List Char)
  relevantSlides : List RelevantSlide
  responseTime : ℕ
deriving DecidableEq, Repr

/-- `session.metrics`. -/
structure SessionMetrics where
  totalQuestions : ℕ := 0
  averageResponseTime : ℚ := 0
deriving DecidableEq, Repr

/-- Conversation session state of `ConversationalAI`. -/
structure Session where
  createdAt : ℕ := 0
  lastActive : ℕ := 0
  conversationHistory : List TurnEntry := []
  slideContext : SlideContext := {}
  metrics : SessionMetrics := {}
deriving DecidableEq, Repr

/-- `ConversationalAI.initializeSession`. -/
def initializeSession (now : ℕ) (ctx : SlideContext) : Session :=
  { createdAt := now, lastActive := now, slideContext := ctx }

/-- Oracle for the external calls and clock readings of one
`generateResponse` call: whether text generation succeeds and what it
returns, whether speech synthesis succeeds and the produced file name, the
`Math.random` draw selecting the fallback string, the `new Date()` value and
the two `Date.now() - startTime` readings (history entry and metrics). -/
structure AskEnv where
  textGenOk : Bool := true
  aiText : List Char := []
  speechOk : Bool := true
  audioFile : List Char := []
  fallbackIdx : ℕ := 0
  now : ℕ := 0
  rtEntry : ℕ := 0
  rtMetrics : ℕ := 0
deriving Repr

/-- Value returned by `generateResponse`. -/
structure AskResult where
  success : Bool
  response : Option (List Char) := none
  audioUrl : Option (List Char) := none
  intent : Option Intent := none
  confidence : Option ℚ := none
  relevantSlides : List RelevantSlide := []
  errorMsg : Option (List Char) := none
  fallbackResponse : Option (List Char) := none
  responseTime : ℕ := 0
deriving DecidableEq, Repr

/-- Fallback strings of `ConversationalAI.getFallbackResponse`. -/
def fallbackResponses : List (List Char) :=
  [("I apologize, but I".toList ++ [apos] ++ "m having trouble processing your request right now. Could you please rephrase your question?".toList),
   "Sorry, there seems to be a technical issue. Please try asking your question in a different way.".toList,
   ("I".toList ++ [apos] ++ "m experiencing some difficulties at the moment. Can you try asking a more specific question about the presentation?".toList),
   ("Unfortunately, I can".toList ++ [apos] ++ "t process that request right now. Please ask about specific topics from the slides.".toList)]

/-- `ConversationalAI.getFallbackResponse`: a uniformly drawn entry of the
fallback list, the draw modelled by the index `k`. -/
def getFallbackResponse (k : ℕ) : List Char :=
  fallbackResponses.getD (k % 4) []

/-- `ConversationalAI.generateResponse` as a state transformer on the
session.  An empty input fails validation before the session is touched.
Otherwise `lastActive` and `metrics.totalQuestions` are updated first; a text
generation failure is caught and turned into a failure result with a
fallback string, leaving those updates in place; on success the optional
speech call (whose failure is swallowed, leaving `audioUrl` null), the
relevant slides, the appended history entry and the running-average update
follow. -/
def generateResponse (env : AskEnv) (session : Session) (userInput : List Char)
    (generateAudio : Bool) : AskResult × Session :=
  if userInput = [] then
    ({ success := false,
       errorMsg := some "Invalid user input: must be a non-empty string".toList,
       fallbackResponse := some (getFallbackResponse env.fallbackIdx),
       responseTime := env.rtMetrics }, session)
  else
    let s1 := { session with
      lastActive := env.now,
      metrics := { session.metrics with
        totalQuestions := session.metrics.totalQuestions + 1 } }
    let ir := detectIntentL userInput
    if !env.textGenOk then
      ({ success := false,
         errorMsg := some "text generation failed".toList,
         fallbackResponse := some (getFallbackResponse env.fallbackIdx),
         responseTime := env.rtMetrics }, s1)
    else
      let audioUrl := if generateAudio && env.speechOk then
          some ("/uploads/audio/".toList ++ env.audioFile)
        else none
      let rel := findRelevantSlides userInput s1.slideContext.slides
      let entry : TurnEntry :=
        { userInput := userInput, intent := ir.intent,
          confidence := ir.confidence, response := env.aiText,
          audioUrl := audioUrl, relevantSlides := rel,
          responseTime := env.rtEntry }
      let newAvg := (s1.metrics.averageResponseTime
          * ((s1.metrics.totalQuestions : ℚ) - 1) + (env.rtMetrics : ℚ))
        / (s1.metrics.totalQuestions : ℚ)
      let s2 := { s1 with
        conversationHistory := s1.conversationHistory ++ [entry],
        metrics := { s1.metrics with averageResponseTime := newAvg } }
      ({ success := true, response := some env.aiText, audioUrl := audioUrl,
         intent := some ir.intent, confidence := some ir.confidence,
         relevantSlides := rel, responseTime := env.rtMetrics }, s2)

/-- HTTP answer of `POST /api/conversation/chat`, restricted to the fields
the claims are about. -/
structure ChatHttpResponse where
  status : ℕ
  message : Option (List Char) := none
  audioUrl : Option (List Char) := none
  fallbackMessage : Option (List Char) := none
  errorCode : Option (List Char) := none
deriving DecidableEq, Repr

/-- `POST /api/conversation/chat`: a blank message is rejected with 400 and
code `INVALID_MESSAGE` before `generateResponse` runs; a failed
`generateResponse` becomes a 500 carrying the fallback message and the code
`AI_GENERATION_FAILED`; a successful one becomes a 200 with the text and
audio reference. -/
def chatRoute (env : AskEnv) (session : Session) (message : List Char)
    (generateAudio : Bool) : ChatHttpResponse × Session :=
  if jsTrim message = [] then
    ({ status := 400, errorCode := some "INVALID_MESSAGE".toList }, session)
  else
    let r := generateResponse env session message generateAudio
    if r.1.success then
      ({ status := 200, message := r.1.response, audioUrl := r.1.audioUrl },
        r.2)
    else
      ({ status := 500, fallbackMessage := r.1.fallbackResponse,
         errorCode := some "AI_GENERATION_FAILED".toList }, r.2)

/-- One `generateResponse` call of a run. -/
structure AskEvent where
  env : AskEnv
  input : List Char
  generateAudio : Bool
deriving Repr

/-- Sequence of `generateResponse` calls against one session. -/
def runAsks (s : Session) : List AskEvent → Session
  | [] => s
  | e :: es => runAsks (generateResponse e.env s e.input e.generateAudio).2 es

/-! ## Theorems about the claims -/

/-- First of two distinct source files with identical narration text. -/
def slideDeckDot : RouteSlide :=
  { pptName := "deck.pptx".toList, pageNumber := 3, text := "same narration".toList }

/-- Second of two distinct source files with identical narration text. -/
def slideDeckQm : RouteSlide :=
  { pptName := "deck?pptx".toList, pageNumber := 3, text := "same narration".toList }

/-- C1, counterexample: the pre-generation cache key is built from the
sanitized `pptName` and the page number only, so the two distinct source
files `deck.pptx` and `deck?pptx` — with identical narration text — are
mapped to the same key, and a run of the route on either returns the same
audio URL: the claimed no-collision property of a content-hash key fails. -/
theorem pregenerate_key_collision_example :
    slideDeckDot.pptName ≠ slideDeckQm.pptName
    ∧ slideDeckDot.text = slideDeckQm.text
    ∧ audioFilenameOf slideDeckDot = audioFilenameOf slideDeckQm
    ∧ (pregenerateAudio [] slideDeckDot {}).1.audioUrl
      = (pregenerateAudio [] slideDeckQm {}).1.audioUrl := by
  decide

/-- C1, amended: the audio cache key of `/api/pregenerate-audio` is
`slide-<sanitized pptName>-<pageNumber>`; it contains no content hash of the
asset and no hash of the narration text, so any two slides whose names
sanitize to the same string and that carry the same page number get the same
key, whatever their file contents or narration. -/
theorem pregenerate_key_depends_only_on_name_and_page
    (s t : RouteSlide)
    (hname : sanitizeName (jsOr s.pptName "unknown".toList)
      = sanitizeName (jsOr t.pptName "unknown".toList))
    (hpage : s.pageNumber = t.pageNumber) :
    audioFilenameOf s = audioFilenameOf t := by
  unfold audioFilenameOf
  rw [hname, hpage]

/-- Witness for the amended C1 theorem at two concretely distinct names. -/
theorem pregenerate_key_depends_only_on_name_and_page_witness :
    (sanitizeName (jsOr ("a b".toList : List Char) "unknown".toList)
       = sanitizeName (jsOr "a.b".toList "unknown".toList))
    ∧ audioFilenameOf { pptName := "a b".toList }
      = audioFilenameOf { pptName := "a.b".toList } :=
  ⟨by decide,
   pregenerate_key_depends_only_on_name_and_page
     { pptName := "a b".toList } { pptName := "a.b".toList } (by decide) rfl⟩

/-- Slide body of the repeated `/api/pregenerate-audio` request. -/
def slideRepeated : RouteSlide :=
  { pptName := "deck.pptx".toList, pageNumber := 2, text := "hello slide".toList }

/-- Disk contents after the first pre-generation request for `slideRepeated`
starting from an empty disk. -/
def diskAfterFirst : List (List Char × List Char) :=
  (pregenerateAudio [] slideRepeated {}).2

/-- C2, code bug: the route looks for a cached `<key>.wav`, but
`textToSpeechFile` writes `<key>.mp3`, so the disk-cache branch never fires
for audio this route generated.  A second identical request returns the same
deterministic audio URL but re-issues the TTS provider call, and the `.wav`
file it checks for is absent from the disk the first request produced. -/
theorem pregenerate_repeat_request_repeats_tts_call :
    (pregenerateAudio diskAfterFirst slideRepeated {}).1.audioUrl
      = (pregenerateAudio [] slideRepeated {}).1.audioUrl
    ∧ (pregenerateAudio [] slideRepeated {}).1.ttsProviderCalled = true
    ∧ (pregenerateAudio diskAfterFirst slideRepeated {}).1.ttsProviderCalled = true
    ∧ lookupFile diskAfterFirst (audioFilenameOf slideRepeated ++ ".wav".toList) = none
    ∧ lookupFile diskAfterFirst (audioFilenameOf slideRepeated ++ ".mp3".toList) ≠ none := by
  decide

/-- Evaluation of `detectIntent` on the spec's scenario input: the QUESTION
keyword pattern matches on `what`, so the match-length confidence formula
applies to a 4-character match in a 24-character input. -/
theorem detect_wind_efficiency_eq :
    detectIntent "What is wind efficiency?"
      = ⟨Intent.question,
         calculateIntentConfidence "what is wind efficiency?".toList "what".toList⟩ := by
  have hclean : jsLower (jsTrim "What is wind efficiency?".toList)
      = "what is wind efficiency?".toList := by decide
  unfold detectIntent detectIntentL
  rw [hclean, if_neg (by decide),
    show firstPatternMatch "what is wind efficiency?".toList
      = some (Intent.question, "what".toList) from by decide]

/-- C5, counterexample: `"What is wind efficiency?"` matches the QUESTION
keyword pattern on `what`, so the match-length formula applies and yields
`0.5 + 4/24 = 2/3`, which is below the claimed `0.7`. -/
theorem wind_efficiency_confidence_below :
    (detectIntent "What is wind efficiency?").intent = Intent.question
    ∧ ¬((7/10 : ℚ) ≤ (detectIntent "What is wind efficiency?").confidence) := by
  rw [detect_wind_efficiency_eq]
  refine ⟨rfl, ?_⟩
  unfold calculateIntentConfidence
  rw [show ("what".toList.length : ℚ) = 4 from by norm_num,
    show ("what is wind efficiency?".toList.length : ℚ) = 24 from by norm_num,
    min_def]
  norm_num

/-- C5, amended: `"What is wind efficiency?"` is classified QUESTION with
confidence exactly `2/3` (which is at least `0.5` but below the claimed
`0.7`); the fixed `0.7` applies only to inputs that match no keyword pattern
and merely end in `?`. -/
theorem wind_efficiency_question_two_thirds :
    detectIntent "What is wind efficiency?" = ⟨Intent.question, 2/3⟩
    ∧ detectIntent "zzz?" = ⟨Intent.question, 7/10⟩ := by
  constructor
  · rw [detect_wind_efficiency_eq]
    have : calculateIntentConfidence "what is wind efficiency?".toList "what".toList
        = 2/3 := by
      unfold calculateIntentConfidence
      rw [show ("what".toList.length : ℚ) = 4 from by norm_num,
        show ("what is wind efficiency?".toList.length : ℚ) = 24 from by norm_num,
        min_def]
      norm_num
    rw [this]
  · have hclean : jsLower (jsTrim "zzz?".toList) = "zzz?".toList := by decide
    unfold detectIntent detectIntentL
    rw [hclean, if_neg (by decide),
      show firstPatternMatch "zzz?".toList = none from by decide]
    rw [if_pos (by decide)]

/-- Helper: an input matched by the anchored farewell pattern cannot be
matched by the anchored greeting pattern: no greeting alternative is a
prefix of a string that starts with a farewell alternative. -/
theorem greeting_none_of_farewell (s : List Char)
    (h : matchStart farewellAlts s ≠ none) :
    matchStart greetingAlts s = none := by
  obtain ⟨a, ha⟩ := Option.ne_none_iff_exists'.mp h
  unfold matchStart at ha
  have hmem : a ∈ farewellAlts := List.mem_of_find?_eq_some ha
  have hpre := List.find?_some ha
  rw [List.isPrefixOf_iff_prefix] at hpre
  obtain ⟨t, rfl⟩ := hpre
  fin_cases hmem <;> rfl

/-- C4, counterexample: the pattern loop of `detectIntent` iterates the
intents in insertion order — greeting, question, clarification, summary,
navigation, farewell — so QUESTION is tested before FAREWELL.  The input
`"thanks, what is this"` starts with the farewell token `thanks` and
contains the interrogative token `what`, yet is classified QUESTION, not
FAREWELL. -/
theorem farewell_question_priority_example :
    matchStart farewellAlts (jsLower (jsTrim "thanks, what is this".toList)) ≠ none
    ∧ findWordBounded questionAlts none
        (jsLower (jsTrim "thanks, what is this".toList)) ≠ none
    ∧ (detectIntent "thanks, what is this").intent = Intent.question
    ∧ (detectIntent "thanks, what is this").intent ≠ Intent.farewell := by
  refine ⟨by decide, by decide, by decide, by decide⟩

/-- C4, amended: the classifier tests the patterns in the fixed insertion
order greeting, question, clarification, summary, navigation, farewell, and
the first match wins; hence every input that starts with a farewell token
and also contains an interrogative token is classified QUESTION — the
farewell pattern is only reached when no earlier pattern matched. -/
theorem question_checked_before_farewell (input : List Char)
    (hfw : matchStart farewellAlts (jsLower (jsTrim input)) ≠ none)
    (hq : findWordBounded questionAlts none (jsLower (jsTrim input)) ≠ none) :
    (detectIntentL input).intent = Intent.question := by
  have hg : matchStart greetingAlts (jsLower (jsTrim input)) = none :=
    greeting_none_of_farewell _ hfw
  obtain ⟨m, hm⟩ := Option.ne_none_iff_exists'.mp hq
  have hne : ¬(jsLower (jsTrim input) = []) := fun h0 => hfw (by rw [h0]; rfl)
  simp only [detectIntentL, firstPatternMatch, if_neg hne, hg, hm]

/-- Witness for the amended C4 theorem: `"thanks, can you explain"` starts
with a farewell token, contains an interrogative token, and is classified
QUESTION. -/
theorem question_checked_before_farewell_witness :
    (matchStart farewellAlts
        (jsLower (jsTrim "thanks, can you explain".toList)) ≠ none)
    ∧ (findWordBounded questionAlts none
        (jsLower (jsTrim "thanks, can you explain".toList)) ≠ none)
    ∧ (detectIntentL "thanks, can you explain".toList).intent
        = Intent.question :=
  ⟨by decide, by decide,
   question_checked_before_farewell _ (by decide) (by decide)⟩

/-- Helper: a decimal-digit string contains no dash, so `split("-")` does not
cut inside it. -/
theorem no_dash_of_digits {l : List Char} (h : ∀ c ∈ l, c.isDigit) :
    ∀ x ∈ l, ¬((x == '-') = true) := by
  intro x hx hcontra
  have hdig := h x hx
  rw [beq_iff_eq] at hcontra
  subst hcontra
  exact absurd hdig (by decide)

/-- Helper: splitting `<digits>-<digits>` on the dash yields exactly the two
digit runs. -/
theorem splitOn_digits_dash {ds es : List Char}
    (hds : ∀ c ∈ ds, c.isDigit) (hes : ∀ c ∈ es, c.isDigit) :
    (ds ++ '-' :: es).splitOn '-' = [ds, es] := by
  show List.splitOnP (· == '-') (ds ++ '-' :: es) = [ds, es]
  rw [List.splitOnP_first _ _ (no_dash_of_digits hds) '-' (by decide),
    List.splitOnP_eq_single _ _ (no_dash_of_digits hes)]

/-- Helper: `parseInt` never returns a value on the empty string. -/
theorem jsParseInt_nil : jsParseInt [] = none := rfl

/-- C3: with an existing entry of `N` bytes, a request carrying
`Range: bytes=<start>-<end>` (with `start ≤ end < N`, both written as digit
runs) is answered 206 with `Content-Range: bytes start-end/N`,
`Content-Length: end - start + 1` and exactly the bytes `start..end`; a
request without a `Range` header is answered 200 with all `N` bytes and
`Accept-Ranges: bytes`; a request for an unknown reference is answered 404
with an empty body (no partial content). -/
theorem audio_route_range_correct
    (store : List (List Char × List ℕ)) (name : List Char) (bytes : List ℕ)
    (hfile : lookupFile store name = some bytes)
    (s e : ℕ) (ds es : List Char)
    (hds : ∀ c ∈ ds, c.isDigit) (hes : ∀ c ∈ es, c.isDigit)
    (hs : jsParseInt ds = some s) (he : jsParseInt es = some e)
    (hse : s ≤ e) (heN : e < bytes.length) :
    ((serveAudio store name (some ("bytes=".toList ++ ds ++ '-' :: es))).status = 206
     ∧ (serveAudio store name (some ("bytes=".toList ++ ds ++ '-' :: es))).contentRange
       = some ("bytes ".toList ++ (Nat.repr s).toList ++ ['-'] ++ (Nat.repr e).toList
           ++ ['/'] ++ (Nat.repr bytes.length).toList)
     ∧ (serveAudio store name (some ("bytes=".toList ++ ds ++ '-' :: es))).contentLength
       = some (e - s + 1)
     ∧ (serveAudio store name (some ("bytes=".toList ++ ds ++ '-' :: es))).body.length
       = e - s + 1
     ∧ (∀ i, i < e - s + 1 →
         (serveAudio store name (some ("bytes=".toList ++ ds ++ '-' :: es))).body[i]?
           = bytes[s + i]?))
    ∧ ((serveAudio store name none).status = 200
       ∧ (serveAudio store name none).contentLength = some bytes.length
       ∧ (serveAudio store name none).acceptRanges = true
       ∧ (serveAudio store name none).body = bytes)
    ∧ (∀ other hdr, lookupFile store other = none →
        (serveAudio store other hdr).status = 404
        ∧ (serveAudio store other hdr).body = []) := by
  have hes_ne : es ≠ [] := by
    rintro rfl
    rw [jsParseInt_nil] at he
    exact Option.noConfusion he
  have hstrip : removeFirstSub "bytes=".toList
      ("bytes=".toList ++ ds ++ '-' :: es) = ds ++ '-' :: es := by
    show removeFirstSub "bytes=".toList
      ('b' :: 'y' :: 't' :: 'e' :: 's' :: '=' :: (ds ++ '-' :: es)) = ds ++ '-' :: es
    rw [removeFirstSub]
    rw [if_pos (by induction ds with
      | nil => rfl
      | cons c cs ih => rfl)]
    rfl
  have hserve : serveAudio store name (some ("bytes=".toList ++ ds ++ '-' :: es))
      = { status := 206,
          contentRange := some ("bytes ".toList ++ (Nat.repr s).toList ++ ['-']
            ++ (Nat.repr e).toList ++ ['/'] ++ (Nat.repr bytes.length).toList),
          contentLength := some (e - s + 1),
          acceptRanges := true,
          body := (bytes.drop s).take (e - s + 1) } := by
    simp only [serveAudio, hfile, hstrip, splitOn_digits_dash hds hes,
      List.headD, List.get?, if_neg hes_ne, hs, he]
    rw [if_neg (by omega)]
  refine ⟨⟨?_, ?_, ?_, ?_, ?_⟩, ?_, ?_⟩
  · rw [hserve]
  · rw [hserve]
  · rw [hserve]
  · rw [hserve]
    simp only [List.length_take, List.length_drop]
    rw [inf_eq_left.mpr (by omega)]
  · intro i hi
    rw [hserve]
    simp only
    rw [List.getElem?_take_of_lt hi, List.getElem?_drop]
  · simp [serveAudio, hfile]
  · intro other hdr hnone
    simp [serveAudio, hnone]

set_option maxRecDepth 4000 in
/-- Witness for C3: a 500-byte entry requested with `Range: bytes=0-99` is
answered 206 with `Content-Length: 100` and the first 100 bytes, the
spec's range-correctness scenario. -/
theorem audio_route_range_correct_witness :
    (lookupFile [("a.mp3".toList, List.range 500)] "a.mp3".toList
       = some (List.range 500))
    ∧ (∀ c ∈ ['0'], c.isDigit) ∧ (∀ c ∈ ['9', '9'], c.isDigit)
    ∧ jsParseInt ['0'] = some 0 ∧ jsParseInt ['9', '9'] = some 99
    ∧ (0 ≤ 99 ∧ 99 < (List.range 500).length)
    ∧ (serveAudio [("a.mp3".toList, List.range 500)] "a.mp3".toList
        (some ("bytes=".toList ++ ['0'] ++ '-' :: ['9', '9']))).status = 206
    ∧ (serveAudio [("a.mp3".toList, List.range 500)] "a.mp3".toList
        (some ("bytes=".toList ++ ['0'] ++ '-' :: ['9', '9']))).contentLength
      = some (99 - 0 + 1) := by
  have h := audio_route_range_correct [("a.mp3".toList, List.range 500)]
    "a.mp3".toList (List.range 500) (by decide) 0 99 ['0'] ['9', '9']
    (by decide) (by decide) (by decide) (by decide) (by decide) (by simp)
  exact ⟨by decide, by decide, by decide, by decide, by decide,
    ⟨by decide, by simp⟩, h.1.1, h.1.2.2.1⟩

/-- Ranking order required of the result: score strictly descending, ties
broken by slide index ascending. -/
def RankedBefore (a b : RelevantSlide) : Prop :=
  b.relevanceScore < a.relevanceScore
  ∨ (b.relevanceScore = a.relevanceScore ∧ a.slideIndex < b.slideIndex)

/-- Helper: membership through the stable insertion. -/
theorem mem_insertByScore {y e : RelevantSlide} {l : List RelevantSlide} :
    y ∈ insertByScore e l ↔ y = e ∨ y ∈ l := by
  induction l with
  | nil => simp [insertByScore]
  | cons x xs ih =>
    by_cases h : x.relevanceScore > e.relevanceScore
    · simp only [insertByScore, if_pos h, List.mem_cons, ih]
      tauto
    · simp only [insertByScore, if_neg h, List.mem_cons]

/-- Helper: membership through the stable sort. -/
theorem mem_sortByScoreDesc {y : RelevantSlide} {l : List RelevantSlide} :
    y ∈ sortByScoreDesc l ↔ y ∈ l := by
  induction l with
  | nil => simp [sortByScoreDesc]
  | cons x xs ih =>
    show y ∈ insertByScore x (sortByScoreDesc xs) ↔ _
    rw [mem_insertByScore, List.mem_cons, ih]

/-- Helper: inserting an element whose slide index is below every index of a
list ordered by `RankedBefore` keeps the list ordered. -/
theorem pairwise_insertByScore {e : RelevantSlide} {l : List RelevantSlide}
    (hl : l.Pairwise RankedBefore)
    (hidx : ∀ y ∈ l, e.slideIndex < y.slideIndex) :
    (insertByScore e l).Pairwise RankedBefore := by
  induction l with
  | nil => simp [insertByScore, RankedBefore]
  | cons x xs ih =>
    rw [List.pairwise_cons] at hl
    obtain ⟨hx, hxs⟩ := hl
    by_cases h : x.relevanceScore > e.relevanceScore
    · rw [insertByScore, if_pos h, List.pairwise_cons]
      refine ⟨?_, ih hxs (fun y hy => hidx y (List.mem_cons_of_mem x hy))⟩
      intro y hy
      rcases mem_insertByScore.mp hy with rfl | hy'
      · exact Or.inl h
      · exact hx y hy'
    · rw [insertByScore, if_neg h, List.pairwise_cons]
      push_neg at h
      refine ⟨?_, List.pairwise_cons.mpr ⟨hx, hxs⟩⟩
      intro y hy
      rcases List.mem_cons.mp hy with heq | hy'
      · subst heq
        rcases Nat.lt_or_ge y.relevanceScore e.relevanceScore with hlt | hge
        · exact Or.inl hlt
        · exact Or.inr ⟨Nat.le_antisymm h hge, hidx y (List.mem_cons_self y xs)⟩
      · rcases hx y hy' with hlt | ⟨heq, _⟩
        · exact Or.inl (Nat.lt_of_lt_of_le hlt h)
        · rcases Nat.lt_or_ge y.relevanceScore e.relevanceScore with hlt2 | hge2
          · exact Or.inl hlt2
          · refine Or.inr ⟨Nat.le_antisymm (heq ▸ h) hge2,
              hidx y (List.mem_cons_of_mem x hy')⟩

/-- Helper: sorting a list whose slide indexes strictly increase yields a
list ordered by `RankedBefore`. -/
theorem pairwise_sortByScoreDesc {l : List RelevantSlide}
    (hl : l.Pairwise (fun a b => a.slideIndex < b.slideIndex)) :
    (sortByScoreDesc l).Pairwise RankedBefore := by
  induction l with
  | nil => simp [sortByScoreDesc]
  | cons x xs ih =>
    rw [List.pairwise_cons] at hl
    obtain ⟨hx, hxs⟩ := hl
    show (insertByScore x (sortByScoreDesc xs)).Pairwise RankedBefore
    exact pairwise_insertByScore (ih hxs)
      (fun y hy => hx y (mem_sortByScoreDesc.mp hy))

/-- C6, amended: `findRelevantSlides` keeps at most three entries, each with
a strictly positive raw keyword score — weight 3 per query token of length
greater than 3 contained in the slide title and weight 2 per token contained
in the slide body text, with NO normalization by the token count, so the
scores are natural numbers that may well exceed 1 — and the result is sorted
by score descending with ties broken by slide index ascending. -/
theorem findRelevantSlides_ranking (input : List Char) (slides : List JsSlide) :
    (findRelevantSlides input slides).length ≤ 3
    ∧ (∀ e ∈ findRelevantSlides input slides,
        0 < e.relevanceScore
        ∧ ∃ sl, slides[e.slideIndex]? = some sl
            ∧ e.relevanceScore = relevanceScoreOf (keywordsOf input) sl
            ∧ e.title = jsOr sl.title (defaultTitle e.slideIndex))
    ∧ (findRelevantSlides input slides).Pairwise RankedBefore := by
  have h1 : (slides.enum).Pairwise (fun p q => p.1 < q.1) := by
    have h0 := List.pairwise_lt_range slides.length
    rw [← List.enum_map_fst slides, List.pairwise_map] at h0
    exact h0
  simp only [findRelevantSlides]
  refine ⟨List.length_take_le 3 _, ?_, ?_⟩
  · intro e he
    have he1 := List.mem_of_mem_take he
    rw [mem_sortByScoreDesc, List.mem_filter] at he1
    obtain ⟨hmem, hpos⟩ := he1
    rw [List.mem_map] at hmem
    obtain ⟨p, hp, rfl⟩ := hmem
    exact ⟨by simpa using hpos, p.2, List.mem_enum_iff_getElem?.mp hp, rfl, rfl⟩
  · exact List.Pairwise.sublist (List.take_sublist 3 _)
      (pairwise_sortByScoreDesc (List.Pairwise.filter _ (List.pairwise_map.mpr h1)))

/-- Query of the ranking counterexample. -/
def rankQuery : List Char := "wind turbine efficiency".toList

/-- Slide 0 of the ranking counterexample: matches no query token. -/
def rankSlideA : JsSlide :=
  { title := "Intro".toList, text := "Solar power overview".toList }

/-- Slide 1 of the ranking counterexample: title contains `wind` and
`turbine`, body contains `efficiency`. -/
def rankSlideB : JsSlide :=
  { title := "wind turbines".toList, text := "efficiency data".toList }

/-- Slide 2 of the ranking counterexample: body contains `wind`. -/
def rankSlideC : JsSlide :=
  { title := "Costs".toList, text := "wind cost".toList }

/-- Slides of the ranking counterexample. -/
def rankSlides : List JsSlide := [rankSlideA, rankSlideB, rankSlideC]

/-- C6, counterexample: on a three-token query, `findRelevantSlides` returns
the raw score 8 = 3 + 3 + 2 for slide 1 — not the token-normalized `8/3` of
the spec's reference definition — so the produced scores are neither
normalized by the token count nor within `[0, 1]`. -/
theorem ranking_not_normalized_example :
    (findRelevantSlides rankQuery rankSlides).map
        (fun e => (e.slideIndex, e.relevanceScore)) = [(1, 8), (2, 2)]
    ∧ specFallbackRank rankQuery rankSlides = [(1, 8/3), (2, 2/3)]
    ∧ ¬((8 : ℚ) ≤ 1)
    ∧ ((8 : ℚ) ≠ 8/3) := by
  have henum : rankSlides.enum
      = [(0, rankSlideA), (1, rankSlideB), (2, rankSlideC)] := rfl
  have hA : relevanceScoreOf (keywordsOf rankQuery) rankSlideA = 0 := by decide
  have hB : relevanceScoreOf (keywordsOf rankQuery) rankSlideB = 8 := by decide
  have hC : relevanceScoreOf (keywordsOf rankQuery) rankSlideC = 2 := by decide
  have hlen : (keywordsOf rankQuery).length = 3 := by decide
  refine ⟨by decide, ?_, by norm_num, by norm_num⟩
  simp only [specFallbackRank, henum, List.map_cons, List.map_nil, hA, hB, hC, hlen]
  norm_num [List.filter, sortByScoreDescQ, insertByScoreQ]

/-- Helper: the JavaScript `||` chain is non-empty whenever its last
alternative is. -/
theorem jsOr_ne_nil {a b : List Char} (hb : b ≠ []) : jsOr a b ≠ [] := by
  unfold jsOr
  split_ifs with h
  · exact hb
  · exact h

/-- C7: a failed background pre-generation only flips the target slide's
`audioStatus` to `failed` — every other slide is untouched and no
user-visible error is produced — and a foreground `/api/narrate` request for
a slide without a complete pre-generated record always answers 200,
falling back to on-demand generation; even when every provider call fails it
still returns the non-empty basic text narration, with a null audio
reference. -/
theorem background_failure_silent_fallback :
    (∀ (slides : List FrontSlide) (i : ℕ),
      (applyPregenResult slides i none).length = slides.length
      ∧ (∀ j sl, slides[j]? = some sl →
          (applyPregenResult slides i none)[j]?
            = some (if j = i then { sl with audioStatus := "failed".toList }
                    else sl)))
    ∧ (∀ (slide : RouteSlide) (env : NarrateEnv),
        slide.preGeneratedAudio = [] ∨ slide.preGeneratedNarration = [] →
        (narrate slide env).status = 200
        ∧ (env.tts1Ok = false → env.tts2Ok = false →
            (narrate slide env).narration
              = jsOr slide.text (jsOr slide.title
                  "This slide presents important information.".toList)
            ∧ (narrate slide env).narration ≠ []
            ∧ (narrate slide env).audioUrl = none)) := by
  constructor
  · intro slides i
    constructor
    · simp [applyPregenResult, List.enum_length]
    · intro j sl hj
      simp only [applyPregenResult, List.getElem?_map, List.getElem?_enum, hj,
        Option.map_some']
  · intro slide env hpre
    have hc : (decide (slide.preGeneratedAudio ≠ [])
        && decide (slide.preGeneratedNarration ≠ [])) = false := by
      rcases hpre with h | h <;> simp [h]
    constructor
    · simp only [narrate, narrateFallback, hc]
      split_ifs <;> rfl
    · intro h1 h2
      have hfb : narrateFallback slide env
          = { status := 200,
              narration := jsOr slide.text (jsOr slide.title
                "This slide presents important information.".toList),
              audioUrl := none } := by
        simp [narrateFallback, h2]
      have hnar : narrate slide env = narrateFallback slide env := by
        unfold narrate
        rw [hc]
        simp [h1]
      rw [hnar, hfb]
      exact ⟨rfl, jsOr_ne_nil (jsOr_ne_nil (by decide)), rfl⟩

/-- Witness for C7 at a concrete two-slide deck: the failure handler marks
slide 1 `failed` and leaves slide 0 alone, and a narrate request whose
provider calls all fail still returns 200 with the slide text. -/
theorem background_failure_silent_fallback_witness :
    ((([⟨none, none, "ready".toList⟩, ⟨none, none, []⟩] : List FrontSlide)[1]?
        = some (⟨none, none, []⟩ : FrontSlide))
     ∧ (applyPregenResult [⟨none, none, "ready".toList⟩, ⟨none, none, []⟩] 1
          none)[1]? = some (⟨none, none, "failed".toList⟩ : FrontSlide))
    ∧ (({ text := "solar".toList } : RouteSlide).preGeneratedAudio = []
        ∨ ({ text := "solar".toList } : RouteSlide).preGeneratedNarration = [])
    ∧ (narrate { text := "solar".toList }
        { tts1Ok := false, tts2Ok := false }).status = 200
    ∧ (narrate { text := "solar".toList }
        { tts1Ok := false, tts2Ok := false }).narration ≠ [] := by
  have h := background_failure_silent_fallback
  have hfront := (h.1 [⟨none, none, "ready".toList⟩, ⟨none, none, []⟩] 1).2 1
    ⟨none, none, []⟩ (by decide)
  have hback := h.2 { text := "solar".toList }
    { tts1Ok := false, tts2Ok := false } (Or.inl rfl)
  exact ⟨⟨by decide, by simpa using hfront⟩, Or.inl rfl, hback.1,
    (hback.2 rfl rfl).2.1⟩

/-- C9: an input that is empty or all whitespace trims to the empty string,
and `detectIntent` answers UNKNOWN with confidence exactly 0 on it. -/
theorem detect_blank_unknown_zero (input : String)
    (h : ∀ c ∈ input.toList, isJsWhitespace c) :
    detectIntent input = ⟨Intent.unknown, 0⟩ := by
  have htrim : jsTrim input.toList = [] := by
    unfold jsTrim
    rw [List.dropWhile_eq_nil_iff.mpr h]
    rfl
  unfold detectIntent detectIntentL
  rw [htrim]
  rfl

/-- Witness for C9 at a whitespace-only input. -/
theorem detect_blank_unknown_zero_witness :
    (∀ c ∈ (" \t ".toList : List Char), isJsWhitespace c)
    ∧ detectIntent " \t " = ⟨Intent.unknown, 0⟩ :=
  ⟨by decide, detect_blank_unknown_zero " \t " (by decide)⟩

/-- Helper: the fallback string drawn for any random index is one of the
four polite fallback responses, and is non-empty. -/
theorem getFallbackResponse_mem (k : ℕ) :
    getFallbackResponse k ∈ fallbackResponses ∧ getFallbackResponse k ≠ [] := by
  have h4 : k % 4 < fallbackResponses.length := by
    have : k % 4 < 4 := Nat.mod_lt _ (by omega)
    simpa [fallbackResponses] using this
  constructor
  · unfold getFallbackResponse
    rw [List.getD_eq_getElem _ _ h4]
    exact List.getElem_mem h4
  · unfold getFallbackResponse
    rw [List.getD_eq_getElem _ _ h4]
    have : k % 4 < 4 := Nat.mod_lt _ (by omega)
    interval_cases h : k % 4 <;> simp [fallbackResponses]

/-- C8: during a chat turn with audio requested, a speech-synthesis failure
degrades the turn to text-only — the route still answers 200 with the
generated text and a null audio reference — while a text-generation failure
fails the turn: the route answers 500 carrying the structured code
`AI_GENERATION_FAILED` and a polite fallback string drawn from the fixed
fallback list. -/
theorem chat_audio_failure_degrades
    (env : AskEnv) (session : Session) (message : List Char)
    (hmsg : jsTrim message ≠ []) :
    (env.textGenOk = true →
      (chatRoute env session message true).1.status = 200
      ∧ (chatRoute env session message true).1.message = some env.aiText
      ∧ (chatRoute env session message true).1.errorCode = none
      ∧ (env.speechOk = false →
          (chatRoute env session message true).1.audioUrl = none))
    ∧ (env.textGenOk = false →
      (chatRoute env session message true).1.status = 500
      ∧ (chatRoute env session message true).1.errorCode
          = some "AI_GENERATION_FAILED".toList
      ∧ (chatRoute env session message true).1.fallbackMessage
          = some (getFallbackResponse env.fallbackIdx)
      ∧ getFallbackResponse env.fallbackIdx ∈ fallbackResponses
      ∧ getFallbackResponse env.fallbackIdx ≠ []) := by
  have hne : message ≠ [] := fun h => hmsg (by rw [h]; rfl)
  constructor
  · intro h1
    refine ⟨?_, ?_, ?_, ?_⟩
    · simp [chatRoute, generateResponse, if_neg hmsg, if_neg hne, h1]
    · simp [chatRoute, generateResponse, if_neg hmsg, if_neg hne, h1]
    · simp [chatRoute, generateResponse, if_neg hmsg, if_neg hne, h1]
    · intro h2
      simp [chatRoute, generateResponse, if_neg hmsg, if_neg hne, h1, h2]
  · intro h1
    refine ⟨?_, ?_, ?_, (getFallbackResponse_mem _).1, (getFallbackResponse_mem _).2⟩ <;>
      simp [chatRoute, generateResponse, if_neg hmsg, if_neg hne, h1]

/-- Environment of a chat turn whose speech synthesis fails. -/
def envSpeechFail : AskEnv :=
  { textGenOk := true, aiText := "answer".toList, speechOk := false }

/-- Environment of a chat turn whose text generation fails. -/
def envTextFail : AskEnv := { textGenOk := false, fallbackIdx := 2 }

/-- Witness for C8: on a concrete fresh session and message, a failed speech
step still yields a 200 text-only answer, and a failed text-generation step
yields a 500 with the structured code. -/
theorem chat_audio_failure_degrades_witness :
    (jsTrim "hi there".toList ≠ [])
    ∧ (chatRoute envSpeechFail (initializeSession 0 {}) "hi there".toList
        true).1.status = 200
    ∧ (chatRoute envSpeechFail (initializeSession 0 {}) "hi there".toList
        true).1.audioUrl = none
    ∧ (chatRoute envTextFail (initializeSession 0 {}) "hi there".toList
        true).1.status = 500
    ∧ (chatRoute envTextFail (initializeSession 0 {}) "hi there".toList
        true).1.errorCode = some "AI_GENERATION_FAILED".toList := by
  have hA := chat_audio_failure_degrades envSpeechFail (initializeSession 0 {})
    "hi there".toList (by decide)
  have hB := chat_audio_failure_degrades envTextFail (initializeSession 0 {})
    "hi there".toList (by decide)
  exact ⟨by decide, (hA.1 rfl).1, (hA.1 rfl).2.2.2 rfl, (hB.2 rfl).1,
    (hB.2 rfl).2.1⟩

/-- Helper: one `generateResponse` call preserves the inequality between the
question counter and the history length, whatever the input and oracle. -/
theorem generateResponse_counter_ge (env : AskEnv) (s : Session)
    (input : List Char) (b : Bool)
    (h : s.conversationHistory.length ≤ s.metrics.totalQuestions) :
    (generateResponse env s input b).2.conversationHistory.length
      ≤ (generateResponse env s input b).2.metrics.totalQuestions := by
  by_cases hin : input = []
  · simpa [generateResponse, hin] using h
  · cases htg : env.textGenOk
    · simp only [generateResponse, if_neg hin, htg]
      simpa using Nat.le_succ_of_le h
    · simp only [generateResponse, if_neg hin, htg]
      simpa using Nat.succ_le_succ h

/-- Helper: any sequence of `generateResponse` calls preserves the
counter-dominates-history invariant. -/
theorem runAsks_counter_ge (events : List AskEvent) (s : Session)
    (h : s.conversationHistory.length ≤ s.metrics.totalQuestions) :
    (runAsks s events).conversationHistory.length
      ≤ (runAsks s events).metrics.totalQuestions := by
  induction events generalizing s with
  | nil => exact h
  | cons e es ih =>
    exact ih _ (generateResponse_counter_ge e.env s e.input e.generateAudio h)

/-- C10: a `generateResponse` call with a non-empty input — the only kind
the chat route lets through — bumps `metrics.totalQuestions` and refreshes
`lastActive` even when text generation fails; only a successful call appends
a history entry, and the running-average update divides by the
post-increment `totalQuestions`, whose count includes failed asks whose
latencies were never added.  Consequently, after any sequence of asks from a
fresh session, `totalQuestions` is at least the history length; concretely,
a failed ask followed by a successful one of latency `rt` leaves
`totalQuestions = 2`, one history entry, and average latency `rt / 2`. -/
theorem metrics_count_failed_asks
    (env : AskEnv) (s : Session) (input : List Char) (b : Bool)
    (hin : input ≠ []) :
    ((generateResponse env s input b).2.metrics.totalQuestions
        = s.metrics.totalQuestions + 1
      ∧ (generateResponse env s input b).2.lastActive = env.now
      ∧ (env.textGenOk = false →
          (generateResponse env s input b).2.conversationHistory
            = s.conversationHistory
          ∧ (generateResponse env s input b).2.metrics.averageResponseTime
            = s.metrics.averageResponseTime)
      ∧ (env.textGenOk = true →
          (∃ entry, (generateResponse env s input b).2.conversationHistory
            = s.conversationHistory ++ [entry])
          ∧ (generateResponse env s input b).2.metrics.averageResponseTime
            = (s.metrics.averageResponseTime * (s.metrics.totalQuestions : ℚ)
                + (env.rtMetrics : ℚ))
              / ((s.metrics.totalQuestions : ℚ) + 1)))
    ∧ (∀ (events : List AskEvent) (now : ℕ) (ctx : SlideContext),
        (runAsks (initializeSession now ctx) events).conversationHistory.length
          ≤ (runAsks (initializeSession now ctx) events).metrics.totalQuestions)
    ∧ (∀ (envF envS : AskEnv) (now : ℕ) (ctx : SlideContext),
        envF.textGenOk = false → envS.textGenOk = true →
        (runAsks (initializeSession now ctx)
            [⟨envF, input, b⟩, ⟨envS, input, b⟩]).metrics.totalQuestions = 2
        ∧ (runAsks (initializeSession now ctx)
            [⟨envF, input, b⟩, ⟨envS, input, b⟩]).conversationHistory.length = 1
        ∧ (runAsks (initializeSession now ctx)
            [⟨envF, input, b⟩, ⟨envS, input, b⟩]).metrics.averageResponseTime
          = (envS.rtMetrics : ℚ) / 2) := by
  refine ⟨⟨?_, ?_, ?_, ?_⟩, ?_, ?_⟩
  · cases htg : env.textGenOk <;>
      simp [generateResponse, if_neg hin, htg]
  · cases htg : env.textGenOk <;>
      simp [generateResponse, if_neg hin, htg]
  · intro htg
    simp [generateResponse, if_neg hin, htg]
  · intro htg
    constructor
    · simp only [generateResponse, if_neg hin, htg, Bool.not_true,
        Bool.false_eq_true, if_false]
      exact ⟨_, rfl⟩
    · simp only [generateResponse, if_neg hin, htg, Bool.not_true,
        Bool.false_eq_true, if_false]
      push_cast
      ring
  · intro events now ctx
    exact runAsks_counter_ge events _ (by simp [initializeSession])
  · intro envF envS now ctx hF hS
    refine ⟨?_, ?_, ?_⟩ <;>
      · simp only [runAsks, generateResponse, if_neg hin, hF, hS,
          initializeSession]
        norm_num

/-- Witness for C10: from a fresh session, a failed ask then a successful
ask of latency 10 give two counted questions, one history entry, and an
average latency of `10 / 2`. -/
theorem metrics_count_failed_asks_witness :
    ("why".toList ≠ ([] : List Char))
    ∧ (generateResponse { textGenOk := false } (initializeSession 0 {})
        "why".toList true).2.metrics.totalQuestions = 1
    ∧ (runAsks (initializeSession 0 {})
        [⟨{ textGenOk := false }, "why".toList, true⟩,
         ⟨{ rtMetrics := 10 }, "why".toList, true⟩]).metrics.totalQuestions = 2
    ∧ (runAsks (initializeSession 0 {})
        [⟨{ textGenOk := false }, "why".toList, true⟩,
         ⟨{ rtMetrics := 10 }, "why".toList, true⟩]).conversationHistory.length
      = 1
    ∧ (runAsks (initializeSession 0 {})
        [⟨{ textGenOk := false }, "why".toList, true⟩,
         ⟨{ rtMetrics := 10 }, "why".toList, true⟩]).metrics.averageResponseTime
      = (10 : ℚ) / 2 := by
  have h := metrics_count_failed_asks { textGenOk := false }
    (initializeSession 0 {}) "why".toList true (by decide)
  have h3 := h.2.2 { textGenOk := false } { rtMetrics := 10 } 0 {} rfl rfl
  exact ⟨by decide, h.1.1, h3.1, h3.2.1, by exact_mod_cast h3.2.2⟩

end VoiceAI
